import Mathlib

/-!
Verification of the DD-Satellite-Coms server core (`server/index.js`):
the Celestrak TLE parser, the filesystem-backed TLE cache with its 2-hour
staleness policy and stale fallback, and the per-satellite geometry /
link-budget pipeline of the coverage route.

Modelling conventions:
* JavaScript strings are modelled by Lean `String`; the string primitives
  the code uses (`trim`, `split('\n')`, `startsWith`, `substring`,
  `parseInt`) are given executable models over `String.toList` so that
  concrete inputs evaluate in the kernel.
* The filesystem cache for one constellation group is an
  `Option CacheEntry` (file contents plus mtime in ms); `Date.now()` is an
  explicit `now : Int` parameter; the single axios call is an explicit
  `FetchOutcome` parameter (`ok body` or `fail` for timeout / HTTP error).
* `satellite.js` (twoline2satrec, propagate, gstime, eciToGeodetic,
  eciToEcf, ecfToLookAngles and the degree conversions) is the external
  orbit-propagation capability; its per-satellite outcome is an oracle
  value `PropOutcome` whose success case carries the geodetic position,
  the observer-relative elevation in degrees, and the slant range.
* JavaScript floating-point numbers are modelled by `ℝ`; the one place a
  non-finite value matters (`Number.isFinite(rangeKm)`) is modelled by the
  type `JSNum` distinguishing a finite real from NaN/±Infinity.
-/

open scoped Classical

/-! ## JavaScript string primitives -/

/-- Model of JS `String.prototype.trim`: drop whitespace from both ends.
(JS trims the Unicode whitespace class; `Char.isWhitespace` covers the
ASCII whitespace that can occur in TLE catalog text.) -/
def jsTrim (s : String) : String :=
  (((s.toList.dropWhile Char.isWhitespace).reverse.dropWhile
      Char.isWhitespace).reverse).asString

/-- Auxiliary for `jsSplitNewline`: structural splitter accumulating the
current segment in reverse. -/
def splitNewlineAux : List Char → List Char → List String
  | [], acc => [acc.reverse.asString]
  | c :: rest, acc =>
      if c = '\n' then acc.reverse.asString :: splitNewlineAux rest []
      else splitNewlineAux rest (c :: acc)

/-- Model of JS `split('\n')`: split on every newline, keeping empty
segments; `"".split('\n')` is `[""]`. -/
def jsSplitNewline (s : String) : List String :=
  splitNewlineAux s.toList []

/-- Model of JS `startsWith(p)`. -/
def jsStartsWith (s p : String) : Bool :=
  p.toList.isPrefixOf s.toList

/-- Model of JS `substring(a, b)`: the characters at indices `[a, b)`. -/
def jsSubstring (s : String) (a b : Nat) : String :=
  ((s.toList.drop a).take (b - a)).asString

/-- Decimal-digit run at the head of `cs`, as a number; `none` when there
is no digit (JS `parseInt` yields NaN then). -/
def decDigits (cs : List Char) : Option Nat :=
  let ds := cs.takeWhile Char.isDigit
  if ds.isEmpty then none
  else some (ds.foldl (fun a c => a * 10 + (c.toNat - 48)) 0)

/-- Hex-digit run at the head of `cs` (for JS `parseInt`'s `0x` form). -/
def hexDigits (cs : List Char) : Option Nat :=
  let ds := cs.takeWhile (fun c => c.isDigit || ('a' ≤ c && c ≤ 'f') || ('A' ≤ c && c ≤ 'F'))
  if ds.isEmpty then none
  else some (ds.foldl (fun a c =>
    a * 16 + (if c.isDigit then c.toNat - 48
              else if 'a' ≤ c then c.toNat - 87 else c.toNat - 55)) 0)

/-- Digit part of JS `parseInt` with no radix argument: a leading `0x`/`0X`
selects hexadecimal, otherwise decimal. -/
def jsParseDigits : List Char → Option Nat
  | '0' :: 'x' :: rest => hexDigits rest
  | '0' :: 'X' :: rest => hexDigits rest
  | cs => decDigits cs

/-- Model of JS `parseInt(s)` (radix argument omitted): skip leading
whitespace, optional sign, then the longest digit run; `none` models NaN. -/
def jsParseInt (s : String) : Option Int :=
  match s.toList.dropWhile Char.isWhitespace with
  | '-' :: rest => (jsParseDigits rest).map (fun n => -(n : Int))
  | '+' :: rest => (jsParseDigits rest).map (fun n => (n : Int))
  | cs => (jsParseDigits cs).map (fun n => (n : Int))

/-! ## Catalog parser (`parseTLEs`) -/

/-- One parsed element set, the JS object pushed by `parseTLEs`:
`sats.push({ noradId, line1, line2 })`.  `noradId` is the `parseInt`
result (`none` models NaN).  The JS object literal has no `name`
property — reading `.name` on it yields `undefined` — which is modelled
by the `name` field being `none`. -/
structure TLESat where
  noradId : Option Int
  line1 : String
  line2 : String
  name : Option String := none
deriving Repr, DecidableEq

/-- The loop of `parseTLEs`: `for (let i = 0; i < lines.length - 1; i += 3)`
reads `lines[i]` (the name line, unused in the pushed object),
`lines[i+1]`, `lines[i+2]`; the body runs while at least two lines remain,
and with exactly two remaining `lines[i+2]` is `undefined`, so the
`startsWith` guard fails and nothing is pushed. -/
def parseTriplets : List String → List TLESat
  | _nameLine :: l1 :: l2 :: rest =>
      (if jsStartsWith l1 "1 " && jsStartsWith l2 "2 " then
        [{ noradId := jsParseInt (jsSubstring l1 2 7), line1 := l1, line2 := l2 }]
      else []) ++ parseTriplets rest
  | [_nameLine, _l1] => []
  | _ => []

/-- `parseTLEs(tleText)`: trim, split on newlines, run the triplet loop,
then `sats.slice(0, 30)`. -/
def parseTLEs (tleText : String) : List TLESat :=
  (parseTriplets (jsSplitNewline (jsTrim tleText))).take 30

/-- Consecutive triplets of the line list exactly as the `i += 3` loop
visits them: `(lines[i], lines[i+1]?, lines[i+2]?)` while `i < length - 1`.
Used to state the order-preservation / acceptance characterization of the
parser. -/
def chunk3 : List String → List (String × Option String × Option String)
  | a :: b :: c :: rest => (a, some b, some c) :: chunk3 rest
  | [a, b] => [(a, some b, none)]
  | _ => []

/-- Acceptance test of one triplet, from the loop body: a record is
produced exactly when both element lines are present with their `"1 "` /
`"2 "` markers. -/
def mkElementSet : String × Option String × Option String → Option TLESat
  | (_, some l1, some l2) =>
      if jsStartsWith l1 "1 " && jsStartsWith l2 "2 " then
        some { noradId := jsParseInt (jsSubstring l1 2 7), line1 := l1, line2 := l2 }
      else none
  | _ => none

/-! ## TLE cache manager (`isStale`, `getConstellationTLEs`) -/

/-- The persisted cache file for one group: its text and its mtime
(`stats.mtimeMs`), in milliseconds. -/
structure CacheEntry where
  text : String
  mtimeMs : Int
deriving Repr, DecidableEq

/-- `MIN_REFRESH_MS = 2 * 60 * 60 * 1000` — the 2-hour TTL. -/
def MIN_REFRESH_MS : Int := 2 * 60 * 60 * 1000

/-- `isStale(filePath)`: a missing file is stale; otherwise stale iff
`Date.now() - stats.mtimeMs > MIN_REFRESH_MS`. -/
def isStale (cache : Option CacheEntry) (now : Int) : Bool :=
  match cache with
  | none => true
  | some e => decide (now - e.mtimeMs > MIN_REFRESH_MS)

/-- The `groups` lookup object of `getConstellationTLEs`. -/
def groups (constellation : String) : Option String :=
  if constellation = "iridium" then some "iridium"
  else if constellation = "starlink" then some "starlink"
  else if constellation = "kuiper" then some "kuiper"
  else none

/-- The two request-level failures thrown by `getConstellationTLEs`. -/
inductive TLEError
  | unknownConstellation (c : String)
  | noCacheAvailable (group : String)
deriving Repr, DecidableEq

/-- The error message strings of the two `throw new Error(...)` sites. -/
def errorMessage : TLEError → String
  | .unknownConstellation c => "Unknown constellation: " ++ c
  | .noCacheAvailable g => "Failed to fetch " ++ g ++ " and no cache available"

/-- Outcome of the single axios GET: a body, or a failure (timeout or
HTTP error — axios throws in both cases). -/
inductive FetchOutcome
  | ok (body : String)
  | fail
deriving Repr, DecidableEq

/-- Result of one `getConstellationTLEs` call: the returned list or the
thrown error, the cache file state after the call, and whether the
network was contacted. -/
structure FetchState where
  result : Except TLEError (List TLESat)
  cache : Option CacheEntry
  networkCalled : Bool

/-- `fs.readFileSync(cachePath)` — only reached when the file exists. -/
def readCachedText : Option CacheEntry → String
  | some e => e.text
  | none => ""

/-- The `catch` block of `getConstellationTLEs`: fall back to the stale
cache file when it exists, else throw the no-cache error. -/
def staleFallback (group : String) (cache : Option CacheEntry) : FetchState :=
  match cache with
  | some e => { result := .ok (parseTLEs e.text), cache := some e, networkCalled := true }
  | none => { result := .error (.noCacheAvailable group), cache := none, networkCalled := true }

/-- `getConstellationTLEs(constellation)`: group lookup, fresh-cache read,
otherwise fetch; an empty (or whitespace-only) body is thrown and handled
by the same `catch` as a network failure; a successful non-empty body is
written to the cache file (its mtime becomes `now`) and parsed. -/
def getConstellationTLEs (constellation : String) (cache : Option CacheEntry)
    (now : Int) (net : FetchOutcome) : FetchState :=
  match groups constellation with
  | none => { result := .error (.unknownConstellation constellation),
              cache := cache, networkCalled := false }
  | some group =>
    if isStale cache now = false then
      { result := .ok (parseTLEs (readCachedText cache)), cache := cache,
        networkCalled := false }
    else
      match net with
      | .ok body =>
          if (jsTrim body).isEmpty then staleFallback group cache
          else { result := .ok (parseTLEs body),
                 cache := some { text := body, mtimeMs := now },
                 networkCalled := true }
      | .fail => staleFallback group cache

/-- A failed fetch as the claims use the term: axios threw (timeout or
HTTP error), or the body was empty. -/
def fetchFailed : FetchOutcome → Prop
  | .ok body => (jsTrim body).isEmpty = true
  | .fail => True

/-! ## Geometry and link budget (the coverage route's per-satellite loop) -/

/-- A JavaScript number where finiteness matters: a finite real, or one of
NaN / ±Infinity (`Number.isFinite` is false on all three). -/
inductive JSNum
  | fin (x : ℝ)
  | nonfinite

/-- `Number.isFinite`. -/
def JSNum.isFinite : JSNum → Bool
  | .fin _ => true
  | .nonfinite => false

/-- A degenerate slant range: non-finite, or not `> 0` (the negation of
the route's `Number.isFinite(rangeKm) && rangeKm > 0` guard; NaN compares
false against 0 in JS, matching the `nonfinite` case here). -/
def degenerateRange : JSNum → Prop
  | .fin r => r ≤ 0
  | .nonfinite => True

/-- What `satellite.js` hands the loop body for one satellite when
propagation succeeds: the geodetic position (`degreesLat`/`degreesLong`
of `eciToGeodetic`, height in km) and the observer look angles
(`radiansToDegrees(lookAngles.elevation)`, `lookAngles.rangeSat`). -/
structure GeoOutcome where
  latDeg : ℝ
  lngDeg : ℝ
  heightKm : ℝ
  elevationDeg : ℝ
  rangeKm : JSNum

/-- Per-satellite outcome of the external propagation step: success,
`!pv || !pv.position` (the `continue`), or a thrown error (the per-sat
`catch`). -/
inductive PropOutcome
  | ok (g : GeoOutcome)
  | noPosition
  | exn

/-- `EARTH_RADIUS = 6371` (km). -/
noncomputable def EARTH_RADIUS : ℝ := 6371

/-- `MIN_ELEVATION_DEG = 10`. -/
noncomputable def MIN_ELEVATION_DEG : ℝ := 10

/-- `elevRad = MIN_ELEVATION_DEG * Math.PI / 180`. -/
noncomputable def elevRad : ℝ := MIN_ELEVATION_DEG * Real.pi / 180

/-- `centralAngle = Math.acos(EARTH_RADIUS * Math.cos(elevRad) / (EARTH_RADIUS + h)) - elevRad`.
(`Math.acos` yields NaN outside `[-1, 1]`; `Real.arccos` is the clamped
total function — the argument is in range for every physical height.) -/
noncomputable def centralAngle (h : ℝ) : ℝ :=
  Real.arccos (EARTH_RADIUS * Real.cos elevRad / (EARTH_RADIUS + h)) - elevRad

/-- The frequency table `{iridium: 1.6, starlink: 12.0, kuiper: 12.0}`
indexed by the route's constellation, with the `|| 1.6` default. -/
noncomputable def freqGHz (constellation : String) : ℝ :=
  if constellation = "iridium" then 1.6
  else if constellation = "starlink" then 12.0
  else if constellation = "kuiper" then 12.0
  else 1.6

/-- `pathLossDb = 32.44 + 20 * Math.log10(rangeKm) + 20 * Math.log10(freqGHz)`. -/
noncomputable def pathLossDb (rangeKm freq : ℝ) : ℝ :=
  32.44 + 20 * Real.logb 10 rangeKm + 20 * Real.logb 10 freq

/-- `Math.round`: nearest integer, half toward +∞. -/
noncomputable def jsRound (x : ℝ) : ℝ := ((⌊x + 1 / 2⌋ : ℤ) : ℝ)

/-- `+(x).toFixed(1)`: the value rounded at one decimal place.
(`toFixed` rounds decimal halves away from zero; the half-up model
differs only at negative exact halves, which no claim touches.) -/
noncomputable def jsToFixed1 (x : ℝ) : ℝ := jsRound (10 * x) / 10

/-- One element of the `results` array pushed by the coverage route.
`available` is the proposition `elevation > 10 && pathLossDb < 160`,
evaluated on the unrounded values; `rangeKm`/`pathLossDb` are `none` when
the route emits JSON `null`. -/
structure Entry where
  noradId : Option Int
  lat : ℝ
  lng : ℝ
  altitudeKm : ℝ
  elevation : ℝ
  rangeKm : Option ℝ
  pathLossDb : Option ℝ
  coverageRadiusKm : ℝ
  available : Prop

/-- The body of the route's `for (const sat of tleList)` loop for one
satellite, given the external propagation outcome: skip on propagation
failure or a thrown error, otherwise push the full entry (finite positive
range) or the null-range entry. -/
noncomputable def satEntry (constellation : String) (noradId : Option Int)
    (out : PropOutcome) : Option Entry :=
  match out with
  | .noPosition => none
  | .exn => none
  | .ok g =>
    let covKm := EARTH_RADIUS * centralAngle g.heightKm
    match g.rangeKm with
    | .fin r =>
        if 0 < r then
          some { noradId := noradId, lat := g.latDeg, lng := g.lngDeg,
                 altitudeKm := g.heightKm,
                 elevation := jsToFixed1 g.elevationDeg,
                 rangeKm := some (jsRound r),
                 pathLossDb := some (jsRound (pathLossDb r (freqGHz constellation))),
                 coverageRadiusKm := covKm,
                 available := g.elevationDeg > 10 ∧ pathLossDb r (freqGHz constellation) < 160 }
        else
          some { noradId := noradId, lat := g.latDeg, lng := g.lngDeg,
                 altitudeKm := g.heightKm,
                 elevation := jsToFixed1 g.elevationDeg,
                 rangeKm := none, pathLossDb := none,
                 coverageRadiusKm := covKm, available := False }
    | .nonfinite =>
        some { noradId := noradId, lat := g.latDeg, lng := g.lngDeg,
               altitudeKm := g.heightKm,
               elevation := jsToFixed1 g.elevationDeg,
               rangeKm := none, pathLossDb := none,
               coverageRadiusKm := covKm, available := False }

/-! ## The coverage route handler -/

/-- The query string of `GET /api/:constellation/coverage` as the handler
destructures it: `const { lat = 45.42, lng = -75.7, alt = 100 } = req.query`.
`maxSats` is carried by requests (the reference client sends it) but the
handler never reads it. -/
structure Query where
  lat : Option ℝ
  lng : Option ℝ
  alt : Option ℝ
  maxSats : Option ℝ

/-- The JSON payload of a successful coverage response: the observer echo,
the constellation id, and the satellites array. -/
structure Response where
  observerLat : ℝ
  observerLng : ℝ
  observerAltM : ℝ
  constellation : String
  satellites : List Entry

/-- The `results` array: the loop over `tleList`, each iteration
contributing at most one entry.  The oracle receives the observer data the
loop feeds into `satellite.js` (`lat`, `lng`, `alt` from the query) and
the element set. -/
noncomputable def coverageResults (constellation : String)
    (oracle : ℝ → ℝ → ℝ → TLESat → PropOutcome)
    (lat lng alt : ℝ) (tleList : List TLESat) : List Entry :=
  tleList.filterMap (fun s => satEntry constellation s.noradId (oracle lat lng alt s))

/-- The whole route handler: defaults for `lat`/`lng`/`alt`, the TLE
acquisition (whose thrown errors become the 500 response), then the
per-satellite loop and the response object. -/
noncomputable def handleCoverage (q : Query) (constellation : String)
    (cache : Option CacheEntry) (now : Int) (net : FetchOutcome)
    (oracle : ℝ → ℝ → ℝ → TLESat → PropOutcome) : Except String Response :=
  let lat := q.lat.getD 45.42
  let lng := q.lng.getD (-75.7)
  let alt := q.alt.getD 100
  match (getConstellationTLEs constellation cache now net).result with
  | .error e => .error (errorMessage e)
  | .ok tleList =>
      .ok { observerLat := lat, observerLng := lng, observerAltM := alt,
            constellation := constellation,
            satellites := coverageResults constellation oracle lat lng alt tleList }

/-! ## Concrete inputs used by witnesses and counterexamples -/

/-- A minimal well-formed one-satellite catalog text. -/
def sampleCatalog : String := "N\n1 00005 A\n2 00005 B"

/-- A catalog text whose name line is a real satellite name. -/
def c9text : String := "ISS (ZARYA)\n1 25544 A\n2 25544 B"

/-- An oracle whose propagation always throws. -/
def oracleExn : ℝ → ℝ → ℝ → TLESat → PropOutcome := fun _ _ _ _ => PropOutcome.exn

/-- An element set used as the failing satellite in the C4 witness. -/
def badSat : TLESat := { noradId := none, line1 := "", line2 := "" }

/-- A geometry outcome with a non-finite slant range. -/
noncomputable def gDegenerate : GeoOutcome :=
  { latDeg := 0, lngDeg := 0, heightKm := 550, elevationDeg := 45,
    rangeKm := .nonfinite }

/-- A geometry outcome with slant range exactly 1 km (finite, positive). -/
noncomputable def gLink : GeoOutcome :=
  { latDeg := 0, lngDeg := 0, heightKm := 550, elevationDeg := 45,
    rangeKm := .fin 1 }

/-! ## Helper lemmas -/

/-- The triplet loop is the `filterMap` of the per-triplet acceptance test
over the chunked line list. -/
lemma parseTriplets_eq_filterMap :
    ∀ l : List String, parseTriplets l = (chunk3 l).filterMap mkElementSet
  | [] => rfl
  | [_] => rfl
  | [a, b] => by simp [parseTriplets, chunk3, mkElementSet]
  | a :: b :: c :: rest => by
      have ih := parseTriplets_eq_filterMap rest
      by_cases hc : (jsStartsWith b "1 " && jsStartsWith c "2 ") = true
      · simp [parseTriplets, chunk3, mkElementSet, List.filterMap_cons, hc, ih]
      · simp [parseTriplets, chunk3, mkElementSet, List.filterMap_cons, hc, ih]

/-- Whatever the acceptance test emits has the two line markers, the
`parseInt` of line-1 columns 3–7 as `noradId`, and no name. -/
lemma mkElementSet_eq_some {ch : String × Option String × Option String}
    {r : TLESat} (h : mkElementSet ch = some r) :
    jsStartsWith r.line1 "1 " = true ∧ jsStartsWith r.line2 "2 " = true ∧
      r.noradId = jsParseInt (jsSubstring r.line1 2 7) ∧ r.name = none := by
  obtain ⟨a, ob, oc⟩ := ch
  cases ob with
  | none => simp [mkElementSet] at h
  | some l1 =>
    cases oc with
    | none => simp [mkElementSet] at h
    | some l2 =>
      by_cases hc : (jsStartsWith l1 "1 " && jsStartsWith l2 "2 ") = true
      · rw [mkElementSet, if_pos hc] at h
        cases h
        rcases Bool.and_eq_true_iff.mp hc with ⟨h1, h2⟩
        exact ⟨h1, h2, rfl, rfl⟩
      · rw [mkElementSet, if_neg hc] at h
        cases h

/-- Every record the full parser emits comes from the acceptance test. -/
lemma parseTLEs_mem {t : String} {r : TLESat} (hr : r ∈ parseTLEs t) :
    jsStartsWith r.line1 "1 " = true ∧ jsStartsWith r.line2 "2 " = true ∧
      r.noradId = jsParseInt (jsSubstring r.line1 2 7) ∧ r.name = none := by
  have hr' : r ∈ parseTriplets (jsSplitNewline (jsTrim t)) :=
    List.take_subset _ _ hr
  rw [parseTriplets_eq_filterMap] at hr'
  obtain ⟨ch, _, hmk⟩ := List.mem_filterMap.mp hr'
  exact mkElementSet_eq_some hmk

/-! ## Claims -/

/-- Claim C6: `parseTLEs` accepts a triplet only when its line 1 starts
with `"1 "` and its line 2 starts with `"2 "`; a triplet lacking either
marker contributes nothing while the remaining triplets are still parsed
(the loop is the `filterMap` of the per-triplet test); and every emitted
record's `noradId` is the JS `parseInt` of line-1 columns 3–7
(0-based character indices 2–6). -/
theorem c6_parser_acceptance (t : String) :
    (∀ r ∈ parseTLEs t,
      jsStartsWith r.line1 "1 " = true ∧ jsStartsWith r.line2 "2 " = true ∧
        r.noradId = jsParseInt (jsSubstring r.line1 2 7)) ∧
    parseTriplets (jsSplitNewline (jsTrim t)) =
      (chunk3 (jsSplitNewline (jsTrim t))).filterMap mkElementSet := by
  refine ⟨fun r hr => ?_, parseTriplets_eq_filterMap _⟩
  obtain ⟨h1, h2, h3, _⟩ := parseTLEs_mem hr
  exact ⟨h1, h2, h3⟩

/-- Witness for C6 on the one-satellite sample catalog. -/
theorem c6_witness :
    jsStartsWith "1 00005 A" "1 " = true ∧ jsStartsWith "2 00005 B" "2 " = true ∧
      some (5 : Int) = jsParseInt (jsSubstring "1 00005 A" 2 7) :=
  (c6_parser_acceptance sampleCatalog).1
    { noradId := some 5, line1 := "1 00005 A", line2 := "2 00005 B" } (by decide)

/-- Claim C7: `parseTLEs` returns at most 30 element sets, and the result
is exactly the accepted records in catalog order truncated to the first
30 (in particular a sublist of the full accepted sequence). -/
theorem c7_cap_and_order (t : String) :
    (parseTLEs t).length ≤ 30 ∧
    parseTLEs t =
      ((chunk3 (jsSplitNewline (jsTrim t))).filterMap mkElementSet).take 30 ∧
    (parseTLEs t).Sublist
      ((chunk3 (jsSplitNewline (jsTrim t))).filterMap mkElementSet) := by
  refine ⟨List.length_take_le _ _, ?_, ?_⟩
  · rw [parseTLEs, parseTriplets_eq_filterMap]
  · rw [parseTLEs, parseTriplets_eq_filterMap]
    exact List.take_sublist _ _

/-- Counterexample to claim C9: on a catalog whose first line is the name
`"ISS (ZARYA)"`, the emitted record does not carry a name — the JS object
pushed by `parseTLEs` has no `name` property. -/
theorem c9_counterexample :
    ¬ (∀ r ∈ parseTLEs c9text, r.name.isSome = true) := by decide

/-- Claim C9 (amended): every record produced by the parser carries
`noradId`, `line1` and `line2`, but the name read from the first line of
the triplet is not part of the output record (`name` is absent). -/
theorem c9_no_name_field (t : String) : ∀ r ∈ parseTLEs t, r.name = none :=
  fun _ hr => (parseTLEs_mem hr).2.2.2

/-- Witness for C9 (amended) on the ISS sample. -/
theorem c9_witness :
    ({ noradId := some 25544, line1 := "1 25544 A", line2 := "2 25544 B" } :
      TLESat).name = none :=
  c9_no_name_field c9text _ (by decide)

/-- Claim C1: with a persisted cache entry younger than the 2-hour TTL,
`getConstellationTLEs` makes no network call and returns the parse of the
cached text; and the network is contacted only when no entry exists or
the entry's age is not below the TTL. -/
theorem c1_fresh_cache_no_fetch (constellation group : String) (e : CacheEntry)
    (now : Int) (net : FetchOutcome) (hg : groups constellation = some group) :
    (now - e.mtimeMs < MIN_REFRESH_MS →
      (getConstellationTLEs constellation (some e) now net).result =
          .ok (parseTLEs e.text) ∧
      (getConstellationTLEs constellation (some e) now net).networkCalled = false) ∧
    (∀ cache : Option CacheEntry,
      (getConstellationTLEs constellation cache now net).networkCalled = true →
        cache = none ∨ ∃ e2, cache = some e2 ∧ ¬ now - e2.mtimeMs < MIN_REFRESH_MS) := by
  constructor
  · intro hage
    have hst : isStale (some e) now = false := by
      simp only [isStale, decide_eq_false_iff_not, not_lt]
      omega
    simp [getConstellationTLEs, hg, hst, readCachedText]
  · intro cache hnet
    cases cache with
    | none => exact Or.inl rfl
    | some e2 =>
      by_cases hage : now - e2.mtimeMs < MIN_REFRESH_MS
      · exfalso
        have hst : isStale (some e2) now = false := by
          simp only [isStale, decide_eq_false_iff_not, not_lt]
          omega
        rw [getConstellationTLEs, hg] at hnet
        simp [hst] at hnet
      · exact Or.inr ⟨e2, rfl, hage⟩

/-- Witness for C1: an entry of age 1 second, network down. -/
theorem c1_witness :
    groups "iridium" = some "iridium" ∧
    ((1000 - (CacheEntry.mk "" 0).mtimeMs < MIN_REFRESH_MS →
      (getConstellationTLEs "iridium" (some ⟨"", 0⟩) 1000 .fail).result =
          .ok (parseTLEs "") ∧
      (getConstellationTLEs "iridium" (some ⟨"", 0⟩) 1000 .fail).networkCalled = false) ∧
    (∀ cache : Option CacheEntry,
      (getConstellationTLEs "iridium" cache 1000 .fail).networkCalled = true →
        cache = none ∨ ∃ e2, cache = some e2 ∧ ¬ 1000 - e2.mtimeMs < MIN_REFRESH_MS)) :=
  ⟨rfl, c1_fresh_cache_no_fetch "iridium" "iridium" ⟨"", 0⟩ 1000 .fail rfl⟩

/-- Claim C2: when the fetch is attempted (stale or missing entry) and
fails — timeout, HTTP error or empty body — an existing entry is returned
as parsed text with the stored entry unmodified; with no entry the call
fails with the no-cache error. -/
theorem c2_fetch_failure_fallback (constellation group : String)
    (cache : Option CacheEntry) (now : Int) (net : FetchOutcome)
    (hg : groups constellation = some group)
    (hstale : isStale cache now = true) (hfail : fetchFailed net) :
    (∀ e, cache = some e →
      (getConstellationTLEs constellation cache now net).result =
          .ok (parseTLEs e.text) ∧
      (getConstellationTLEs constellation cache now net).cache = some e) ∧
    (cache = none →
      (getConstellationTLEs constellation cache now net).result =
        .error (.noCacheAvailable group)) := by
  cases net with
  | fail =>
    constructor
    · rintro e rfl
      rw [getConstellationTLEs, hg]
      simp [hstale, staleFallback]
    · rintro rfl
      rw [getConstellationTLEs, hg]
      simp [hstale, staleFallback]
  | ok body =>
    have hempty : (jsTrim body).isEmpty = true := hfail
    constructor
    · rintro e rfl
      rw [getConstellationTLEs, hg]
      simp [hstale, hempty, staleFallback]
    · rintro rfl
      rw [getConstellationTLEs, hg]
      simp [hstale, hempty, staleFallback]

/-- Witness for C2: a three-hour-old entry, network down. -/
theorem c2_witness :
    isStale (some ⟨"x", 0⟩) 10800000 = true ∧
    ((getConstellationTLEs "starlink" (some ⟨"x", 0⟩) 10800000 .fail).result =
        .ok (parseTLEs "x") ∧
     (getConstellationTLEs "starlink" (some ⟨"x", 0⟩) 10800000 .fail).cache =
        some ⟨"x", 0⟩) :=
  ⟨by decide,
   (c2_fetch_failure_fallback "starlink" "starlink" (some ⟨"x", 0⟩) 10800000 .fail
      rfl (by decide) trivial).1 ⟨"x", 0⟩ rfl⟩

/-- Claim C10: the coverage response is independent of `maxSats` — two
requests whose `lat`, `lng` and `alt` parameters agree produce the same
response whatever `maxSats` is (present or absent), since the handler
destructures only `lat`, `lng`, `alt` from the query. -/
theorem c10_maxsats_independence (q1 q2 : Query) (constellation : String)
    (cache : Option CacheEntry) (now : Int) (net : FetchOutcome)
    (oracle : ℝ → ℝ → ℝ → TLESat → PropOutcome)
    (hlat : q1.lat = q2.lat) (hlng : q1.lng = q2.lng) (halt : q1.alt = q2.alt) :
    handleCoverage q1 constellation cache now net oracle =
      handleCoverage q2 constellation cache now net oracle := by
  obtain ⟨a1, b1, c1, m1⟩ := q1
  obtain ⟨a2, b2, c2, m2⟩ := q2
  cases hlat; cases hlng; cases halt
  rfl

/-- Witness for C10: `maxSats = 300` versus absent. -/
theorem c10_witness :
    handleCoverage ⟨none, none, none, some 300⟩ "iridium" none 0 .fail oracleExn =
      handleCoverage ⟨none, none, none, none⟩ "iridium" none 0 .fail oracleExn :=
  c10_maxsats_independence ⟨none, none, none, some 300⟩ ⟨none, none, none, none⟩
    "iridium" none 0 .fail oracleExn rfl rfl rfl

/-- Claim C4: a per-satellite failure (missing propagated position or a
thrown error) yields no entry for that satellite, splits out of the batch
(the rest of the element sets are processed unchanged), and the request
still succeeds whenever the TLE stage succeeded. -/
theorem c4_per_satellite_isolation (constellation : String)
    (oracle : ℝ → ℝ → ℝ → TLESat → PropOutcome) (lat lng alt : ℝ)
    (pre post : List TLESat) (bad : TLESat)
    (hfail : oracle lat lng alt bad = .noPosition ∨ oracle lat lng alt bad = .exn) :
    satEntry constellation bad.noradId (oracle lat lng alt bad) = none ∧
    coverageResults constellation oracle lat lng alt (pre ++ bad :: post) =
      coverageResults constellation oracle lat lng alt pre ++
        coverageResults constellation oracle lat lng alt post ∧
    (∀ q cache now net tleList,
      (getConstellationTLEs constellation cache now net).result = .ok tleList →
      ∃ resp, handleCoverage q constellation cache now net oracle = .ok resp) := by
  have hnone : satEntry constellation bad.noradId (oracle lat lng alt bad) = none := by
    rcases hfail with h | h <;> rw [h] <;> rfl
  refine ⟨hnone, ?_, ?_⟩
  · simp [coverageResults, List.filterMap_append, List.filterMap_cons, hnone]
  · intro q cache now net tleList hok
    simp only [handleCoverage, hok]
    exact ⟨_, rfl⟩

/-- Witness for C4: a one-element batch whose only satellite throws. -/
theorem c4_witness :
    satEntry "iridium" badSat.noradId (oracleExn 0 0 0 badSat) = none ∧
    coverageResults "iridium" oracleExn 0 0 0 ([] ++ badSat :: []) =
      coverageResults "iridium" oracleExn 0 0 0 [] ++
        coverageResults "iridium" oracleExn 0 0 0 [] :=
  ⟨(c4_per_satellite_isolation "iridium" oracleExn 0 0 0 [] [] badSat (Or.inr rfl)).1,
   (c4_per_satellite_isolation "iridium" oracleExn 0 0 0 [] [] badSat (Or.inr rfl)).2.1⟩

/-- Claim C5: a non-finite or non-positive slant range produces an entry
with `rangeKm = null`, `pathLossDb = null`, `available = false`, while the
geodetic position, the (rounded) elevation and the coverage radius are
still reported — the satellite is included, not dropped. -/
theorem c5_degenerate_range_nulls (constellation : String) (noradId : Option Int)
    (g : GeoOutcome) (h : degenerateRange g.rangeKm) :
    satEntry constellation noradId (.ok g) =
      some { noradId := noradId, lat := g.latDeg, lng := g.lngDeg,
             altitudeKm := g.heightKm, elevation := jsToFixed1 g.elevationDeg,
             rangeKm := none, pathLossDb := none,
             coverageRadiusKm := EARTH_RADIUS * centralAngle g.heightKm,
             available := False } := by
  obtain ⟨la, ln, hk, el, rk⟩ := g
  cases rk with
  | nonfinite => rfl
  | fin r =>
      simp only [degenerateRange] at h
      simp [satEntry, if_neg (not_lt.mpr h)]

/-- Witness for C5: a satellite whose look-angle range is NaN. -/
theorem c5_witness :
    satEntry "kuiper" none (.ok gDegenerate) =
      some { noradId := none, lat := gDegenerate.latDeg, lng := gDegenerate.lngDeg,
             altitudeKm := gDegenerate.heightKm,
             elevation := jsToFixed1 gDegenerate.elevationDeg,
             rangeKm := none, pathLossDb := none,
             coverageRadiusKm := EARTH_RADIUS * centralAngle gDegenerate.heightKm,
             available := False } :=
  c5_degenerate_range_nulls "kuiper" none gDegenerate True.intro

/-- Claim C8: every emitted satellite's `coverageRadiusKm` is
`R * (acos(R * cos(elevMin) / (R + h)) − elevMin)` with `R = 6371`,
`elevMin = 10°` in radians and `h` the geodetic altitude — in both the
full-entry and the null-range branches, regardless of availability. -/
theorem c8_coverage_radius_formula (constellation : String)
    (noradId : Option Int) (g : GeoOutcome) :
    Option.map Entry.coverageRadiusKm (satEntry constellation noradId (.ok g)) =
      some (6371 *
        (Real.arccos (6371 * Real.cos (10 * Real.pi / 180) / (6371 + g.heightKm))
          - 10 * Real.pi / 180)) := by
  obtain ⟨la, ln, hk, el, rk⟩ := g
  have hca : EARTH_RADIUS * centralAngle hk =
      6371 * (Real.arccos (6371 * Real.cos (10 * Real.pi / 180) / (6371 + hk))
        - 10 * Real.pi / 180) := by
    simp [centralAngle, elevRad, EARTH_RADIUS, MIN_ELEVATION_DEG]
  cases rk with
  | nonfinite => simpa [satEntry] using hca
  | fin r =>
      by_cases h0 : (0 : ℝ) < r <;>
        simp [satEntry, h0, hca]

/-- Bounding `log10 12` from below: `10^539 < 12^500`. -/
lemma logb_twelve_gt : (539 : ℝ) / 500 < Real.logb 10 12 := by
  have h10 : (1 : ℝ) < 10 := by norm_num
  have hp : (10 : ℝ) ^ (539 : ℕ) < 12 ^ (500 : ℕ) := by norm_num
  have h := Real.logb_lt_logb h10 (pow_pos (by norm_num) 539) hp
  rw [Real.logb_pow, Real.logb_pow, Real.logb_self_eq_one h10] at h
  norm_num at h
  linarith

/-- Bounding `log10 12` from above: `12^25 < 10^27`. -/
lemma logb_twelve_lt : Real.logb 10 12 < 27 / 25 := by
  have h10 : (1 : ℝ) < 10 := by norm_num
  have hp : (12 : ℝ) ^ (25 : ℕ) < 10 ^ (27 : ℕ) := by norm_num
  have h := Real.logb_lt_logb h10 (pow_pos (by norm_num) 25) hp
  rw [Real.logb_pow, Real.logb_pow, Real.logb_self_eq_one h10] at h
  norm_num at h
  linarith

/-- Counterexample to claim C3: for a Starlink satellite at slant range
exactly 1 km, the reported `pathLossDb` is not the exact free-space value
`32.44 + 20·log10(1) + 20·log10(12)` — the route reports
`Math.round(pathLossDb)` (here 54, while the exact value lies strictly
between 54.02 and 54.04). -/
theorem c3_counterexample :
    Option.map Entry.pathLossDb (satEntry "starlink" (some 1) (.ok gLink)) ≠
      some (some (32.44 + 20 * Real.logb 10 1 +
        20 * Real.logb 10 (freqGHz "starlink"))) := by
  have hfreq : freqGHz "starlink" = (12 : ℝ) := by
    rw [freqGHz, if_neg (by decide), if_pos rfl]
    norm_num
  have hsat : Option.map Entry.pathLossDb (satEntry "starlink" (some 1) (.ok gLink)) =
      some (some (jsRound (pathLossDb 1 (freqGHz "starlink")))) := by
    simp [satEntry, gLink, if_pos one_pos]
  intro hEq
  rw [hsat, hfreq] at hEq
  simp only [Option.some.injEq] at hEq
  have h1 : Real.logb 10 1 = 0 := Real.logb_one
  have hv : pathLossDb 1 12 = 32.44 + 20 * Real.logb 10 12 := by
    rw [pathLossDb, h1]; ring
  have hL1 := logb_twelve_gt
  have hL2 := logb_twelve_lt
  have hfloor : (⌊32.44 + 20 * Real.logb 10 12 + 1 / 2⌋ : ℤ) = 54 := by
    rw [Int.floor_eq_iff]
    push_cast
    constructor <;> linarith
  have hround : jsRound (pathLossDb 1 12) = 54 := by
    rw [jsRound, hv, hfloor]; norm_num
  rw [hround, h1] at hEq
  linarith

/-- Claim C3 (amended): for a finite positive slant range the route
reports `pathLossDb = Math.round(32.44 + 20·log10(rangeKm) + 20·log10(freqGHz))`
(frequency 1.6 for iridium, 12.0 for starlink and kuiper), and
`available` holds exactly when `elevationDeg > 10` and the *unrounded*
path loss is `< 160`; both null-value cases are settled by C5. -/
theorem c3_link_budget_rounded (constellation : String) (noradId : Option Int)
    (g : GeoOutcome) (r : ℝ) (hr : g.rangeKm = .fin r) (hpos : 0 < r) :
    satEntry constellation noradId (.ok g) =
      some { noradId := noradId, lat := g.latDeg, lng := g.lngDeg,
             altitudeKm := g.heightKm, elevation := jsToFixed1 g.elevationDeg,
             rangeKm := some (jsRound r),
             pathLossDb := some (jsRound (32.44 + 20 * Real.logb 10 r +
               20 * Real.logb 10 (freqGHz constellation))),
             coverageRadiusKm := EARTH_RADIUS * centralAngle g.heightKm,
             available := (g.elevationDeg > 10 ∧
               32.44 + 20 * Real.logb 10 r + 20 * Real.logb 10 (freqGHz constellation) < 160) } ∧
    freqGHz "iridium" = 1.6 ∧ freqGHz "starlink" = 12.0 ∧ freqGHz "kuiper" = 12.0 := by
  refine ⟨?_, rfl, rfl, rfl⟩
  obtain ⟨la, ln, hk, el, rk⟩ := g
  cases hr
  simp [satEntry, if_pos hpos, pathLossDb]

/-- Witness for C3 (amended) at slant range 1 km, constellation starlink. -/
theorem c3_witness :
    gLink.rangeKm = JSNum.fin 1 ∧ (0 : ℝ) < 1 ∧
    satEntry "starlink" (some 1) (.ok gLink) =
      some { noradId := some 1, lat := gLink.latDeg, lng := gLink.lngDeg,
             altitudeKm := gLink.heightKm, elevation := jsToFixed1 gLink.elevationDeg,
             rangeKm := some (jsRound 1),
             pathLossDb := some (jsRound (32.44 + 20 * Real.logb 10 1 +
               20 * Real.logb 10 (freqGHz "starlink"))),
             coverageRadiusKm := EARTH_RADIUS * centralAngle gLink.heightKm,
             available := (gLink.elevationDeg > 10 ∧
               32.44 + 20 * Real.logb 10 1 + 20 * Real.logb 10 (freqGHz "starlink") < 160) } :=
  ⟨rfl, one_pos, (c3_link_budget_rounded "starlink" (some 1) gLink 1 rfl one_pos).1⟩
